import Mathlib

/-!
Verification of the resilience-testing harness (conftest.py, app/main.py,
app/metrics.py) against its natural-language specification.

Each Python function relevant to the claims is shallowly embedded as a Lean
definition; external effects (HTTP probes, subprocess exit codes, network
failures) are modelled as explicit inputs describing the outcome of each
external interaction.
-/

namespace RecoveryHarness

/-! ## HealthMonitor: `_wait` inside `wait_for_health` (conftest.py 178-207)

The loop runs `attempt` from 1 to `max_attempts`.  Each iteration issues one
GET /health probe; the probe either returns a response with a status code or
raises `httpx.RequestError`.  On status 200 the function returns `True`
immediately; otherwise (non-200 status, or the caught `RequestError`) it
sleeps `delay_seconds` and continues.  After the loop it returns `False`.

The outcome of the probe issued at a given attempt number is supplied by
`probe : Nat → ProbeOutcome`.  `WaitResult` records, besides the returned
boolean, the 1-based attempt numbers at which a probe was actually issued and
the number of inter-attempt sleeps performed. -/

inductive ProbeOutcome where
  | status (code : Nat)
  | requestError
deriving Repr, DecidableEq

/-- `response.status_code == 200` on a non-raising probe. -/
def probeSucceeds : ProbeOutcome → Bool
  | .status c => c == 200
  | .requestError => false

structure WaitResult where
  result : Bool
  probesIssued : List Nat
  sleeps : Nat
deriving Repr, DecidableEq

/-- The `for attempt in range(1, max_attempts + 1)` loop of `_wait`,
starting at attempt number `attempt` with `remaining` iterations left. -/
def waitLoop (probe : Nat → ProbeOutcome) (attempt : Nat) : Nat → WaitResult
  | 0 => ⟨false, [], 0⟩
  | remaining + 1 =>
    if probeSucceeds (probe attempt) then
      ⟨true, [attempt], 0⟩
    else
      let r := waitLoop probe (attempt + 1) remaining
      ⟨r.result, attempt :: r.probesIssued, r.sleeps + 1⟩

/-- `_wait(max_attempts, delay_seconds)` with the probe outcomes given by
`probe` (the delay only determines sleep length, not control flow). -/
def wait (probe : Nat → ProbeOutcome) (maxAttempts : Nat) : WaitResult :=
  waitLoop probe 1 maxAttempts

/-- Per-probe timeout of `_wait`: `httpx.Timeout(5.0)` (conftest.py 184). -/
def probeTimeout : ℚ := 5

/-- Default of the `delay_seconds` parameter of `_wait` (conftest.py 180). -/
def defaultDelaySeconds : ℚ := 1

end RecoveryHarness

namespace RecoveryHarness

/-! ### Lemmas about the wait loop -/

/-- If some attempt in the window `[attempt, attempt+remaining)` succeeds and
all attempts before it (within the window) fail, the loop stops exactly at the
first success: it returns `true`, issues probes only up to that attempt, and
sleeps once per failed attempt before it. -/
theorem waitLoop_first_success (probe : Nat → ProbeOutcome) :
    ∀ (remaining attempt k : Nat),
      attempt ≤ k → k < attempt + remaining →
      (∀ j, attempt ≤ j → j < k → probeSucceeds (probe j) = false) →
      probeSucceeds (probe k) = true →
      waitLoop probe attempt remaining =
        ⟨true, List.range' attempt (k + 1 - attempt), k - attempt⟩ := by
  intro remaining
  induction remaining with
  | zero =>
    intro attempt k hak hk _ _
    omega
  | succ n ih =>
    intro attempt k hak hk hbefore hsucc
    by_cases h : attempt = k
    · subst h
      simp only [waitLoop, hsucc, if_true]
      simp [List.range']
    · have hlt : attempt < k := lt_of_le_of_ne hak h
      have hfail : probeSucceeds (probe attempt) = false :=
        hbefore attempt le_rfl hlt
      simp only [waitLoop, hfail, Bool.false_eq_true, if_false]
      have hrec := ih (attempt + 1) k hlt (by omega)
        (fun j hj hjk => hbefore j (by omega) hjk) hsucc
      rw [hrec]
      have hr : k + 1 - attempt = (k + 1 - (attempt + 1)) + 1 := by omega
      have hrange : List.range' attempt (k + 1 - attempt) =
          attempt :: List.range' (attempt + 1) (k + 1 - (attempt + 1)) := by
        rw [hr, List.range'_succ]
      simp only [hrange]
      have hs : k - attempt = (k - (attempt + 1)) + 1 := by omega
      simp [hs]

/-- If all attempts in the window fail, the loop returns `false`, issues a
probe at every attempt in the window, and sleeps after each one. -/
theorem waitLoop_all_fail (probe : Nat → ProbeOutcome) :
    ∀ (remaining attempt : Nat),
      (∀ j, attempt ≤ j → j < attempt + remaining → probeSucceeds (probe j) = false) →
      waitLoop probe attempt remaining =
        ⟨false, List.range' attempt remaining, remaining⟩ := by
  intro remaining
  induction remaining with
  | zero => intro attempt _; simp [waitLoop]
  | succ n ih =>
    intro attempt hfail
    have h0 : probeSucceeds (probe attempt) = false :=
      hfail attempt le_rfl (by omega)
    simp only [waitLoop, h0, Bool.false_eq_true, if_false]
    rw [ih (attempt + 1) (fun j hj hjn => hfail j (by omega) (by omega))]
    simp [List.range'_succ]

end RecoveryHarness

namespace RecoveryHarness

/-! ### Claims C1-C3 -/

/-- C1: For every `maxAttempts ≥ 1` and every sequence of probe outcomes, if
the first probe to return HTTP 200 is the one at attempt `k` (every earlier
attempt fails) and `k` is within the attempt budget, then `_wait` returns
`true`, the probes issued are exactly attempts `1, …, k` (none after the
success), and exactly `k - 1` inter-attempt sleeps are performed (none after
the success). -/
theorem wait_returns_true_at_first_success
    (probe : Nat → ProbeOutcome) (maxAttempts k : Nat)
    (hmax : 1 ≤ maxAttempts) (hk1 : 1 ≤ k) (hkmax : k ≤ maxAttempts)
    (hbefore : ∀ j, 1 ≤ j → j < k → probeSucceeds (probe j) = false)
    (hsucc : probeSucceeds (probe k) = true) :
    wait probe maxAttempts =
      ⟨true, List.range' 1 k, k - 1⟩ := by
  have h := waitLoop_first_success probe maxAttempts 1 k hk1 (by omega) hbefore hsucc
  have h2 : k + 1 - 1 = k := by omega
  rw [h2] at h
  exact h

/-- Witness for C1: with a probe that errors at attempt 1 and returns 200 at
attempt 2, `_wait` with `maxAttempts = 3` returns `true` having issued probes
at attempts 1 and 2 only, with a single sleep. -/
theorem wait_returns_true_at_first_success_witness :
    wait (fun j => if j = 2 then .status 200 else .requestError) 3 =
      ⟨true, List.range' 1 2, 1⟩ :=
  wait_returns_true_at_first_success
    (fun j => if j = 2 then .status 200 else .requestError) 3 2
    (by decide) (by decide) (by decide)
    (by intro j hj hjk; interval_cases j <;> decide)
    (by decide)

/-- C2: For every `maxAttempts`, if every probe within the budget fails
(non-200 status or request error), `_wait` returns `false` and the attempts
performed and recorded are exactly `1, 2, …, maxAttempts` (1-based,
increasing by 1), i.e. exactly `maxAttempts` of them. -/
theorem wait_returns_false_when_all_fail
    (probe : Nat → ProbeOutcome) (maxAttempts : Nat)
    (hfail : ∀ j, 1 ≤ j → j ≤ maxAttempts → probeSucceeds (probe j) = false) :
    wait probe maxAttempts =
      ⟨false, List.range' 1 maxAttempts, maxAttempts⟩ ∧
    (List.range' 1 maxAttempts).length = maxAttempts := by
  constructor
  · exact waitLoop_all_fail probe maxAttempts 1
      (fun j hj hjr => hfail j hj (by omega))
  · simp

/-- Witness for C2: with a probe that always returns 503, `_wait` with
`maxAttempts = 3` returns `false` after recording attempts 1, 2, 3. -/
theorem wait_returns_false_when_all_fail_witness :
    wait (fun _ => .status 503) 3 = ⟨false, List.range' 1 3, 3⟩ ∧
    (List.range' 1 3).length = 3 :=
  wait_returns_false_when_all_fail (fun _ => .status 503) 3
    (fun _ _ _ => rfl)

/-- C3 counterexample: the claim "the per-request timeout used by each probe
is strictly smaller than the inter-attempt delay … in particular for the
default delay of 1.0 seconds" is false on the code: the probe timeout is the
constant 5.0 (conftest.py 184) and the default delay is 1.0 (conftest.py
180), and 5.0 is not strictly smaller than 1.0. -/
theorem probeTimeout_not_lt_defaultDelay :
    ¬ probeTimeout < defaultDelaySeconds := by
  unfold probeTimeout defaultDelaySeconds
  norm_num

/-- C3 amended: the per-request probe timeout is the constant 5.0 seconds,
independent of `delay_seconds`; it is strictly smaller than the delay exactly
when the delay exceeds 5.0 seconds, and at the default delay of 1.0 seconds
the delay is strictly smaller than the timeout (the opposite of the claim). -/
theorem probeTimeout_characterization :
    probeTimeout = 5 ∧ defaultDelaySeconds < probeTimeout ∧
    ∀ delay : ℚ, (probeTimeout < delay ↔ 5 < delay) := by
  refine ⟨rfl, by norm_num [probeTimeout, defaultDelaySeconds], ?_⟩
  intro delay
  rw [probeTimeout]

end RecoveryHarness

namespace RecoveryHarness

/-! ## Users endpoints (app/main.py 100-154) over the users table
(app/models.py): `id` is an autoincrement primary key, `email` has a UNIQUE
constraint.  `create_user` adds a row and commits; on `IntegrityError`
(duplicate email) it rolls back and answers 400, otherwise it answers 201
with the created entity.  `list_users` returns all rows. -/

structure StoredUser where
  id : Nat
  name : String
  email : String
  is_active : Bool
deriving Repr, DecidableEq

/-- The users table plus its autoincrement id sequence. -/
structure Store where
  users : List StoredUser
  nextId : Nat
deriving Repr, DecidableEq

def emptyStore : Store := ⟨[], 1⟩

inductive CreateResult where
  | created (u : StoredUser)
  | emailExists
deriving Repr, DecidableEq

/-- HTTP status produced by `create_user`: 201 on success, 400 on the
rolled-back `IntegrityError`. -/
def createStatus : CreateResult → Nat
  | .created _ => 201
  | .emailExists => 400

/-- `POST /users/` (app/main.py 100-119): insert-and-commit; a duplicate
email violates the UNIQUE constraint, the transaction is rolled back and the
store is left unchanged. -/
def create_user (s : Store) (name email : String) (is_active : Bool) :
    CreateResult × Store :=
  if s.users.any (fun u => u.email == email) then
    (.emailExists, s)
  else
    let u : StoredUser := ⟨s.nextId, name, email, is_active⟩
    (.created u, ⟨s.users ++ [u], s.nextId + 1⟩)

/-- `GET /users/` (app/main.py 122-127). -/
def list_users (s : Store) : List StoredUser := s.users

/-- C4: Starting from an empty store, a create returns 201; a second create
with the same email returns 400 and leaves the store exactly as the first
create left it (the failed create is atomic); and listing afterwards returns
exactly one entity — the one created first. -/
theorem create_duplicate_email_rolls_back
    (n₁ : String) (e : String) (a₁ : Bool) (n₂ : String) (a₂ : Bool) :
    createStatus (create_user emptyStore n₁ e a₁).1 = 201 ∧
    createStatus (create_user (create_user emptyStore n₁ e a₁).2 n₂ e a₂).1 = 400 ∧
    (create_user (create_user emptyStore n₁ e a₁).2 n₂ e a₂).2 =
      (create_user emptyStore n₁ e a₁).2 ∧
    list_users (create_user (create_user emptyStore n₁ e a₁).2 n₂ e a₂).2 =
      [⟨1, n₁, e, a₁⟩] ∧
    (create_user emptyStore n₁ e a₁).1 = .created ⟨1, n₁, e, a₁⟩ := by
  simp [create_user, emptyStore, list_users, createStatus]

end RecoveryHarness

namespace RecoveryHarness

/-! ## Metrics (app/metrics.py)

`_metrics` is a dict with keys `app_requests_total`, `app_requests_failed`,
`db_connection_ok`, `db_last_error_timestamp`.  `record_request` increments
the total and, on failure, the failed counter.  The error rate is the
expression of tests/test_chaos_load.py 133:
`(failed / total * 100) if total > 0 else 0`. -/

structure Metrics where
  app_requests_total : Nat
  app_requests_failed : Nat
  db_connection_ok : Nat
  db_last_error_timestamp : ℚ
deriving Repr, DecidableEq

/-- The initial `_metrics` dict (app/metrics.py 22-27). -/
def initMetrics : Metrics := ⟨0, 0, 1, 0⟩

/-- `record_request(success)` (app/metrics.py 32-38). -/
def record_request (success : Bool) (m : Metrics) : Metrics :=
  { m with
    app_requests_total := m.app_requests_total + 1,
    app_requests_failed :=
      if success then m.app_requests_failed else m.app_requests_failed + 1 }

/-- The metrics state after a sequence of `record_request` calls, in call
order, starting from the initial state. -/
def runRequests (ops : List Bool) : Metrics :=
  ops.foldl (fun m success => record_request success m) initMetrics

/-- Derived error rate (tests/test_chaos_load.py 133), as a percentage:
defined as 0 when the total is 0 instead of dividing. -/
def errorRate (total failed : Nat) : ℚ :=
  if total > 0 then (failed : ℚ) / (total : ℚ) * 100 else 0

/-- `record_request` preserves `failed ≤ total`. -/
theorem record_request_le (success : Bool) (m : Metrics)
    (h : m.app_requests_failed ≤ m.app_requests_total) :
    (record_request success m).app_requests_failed ≤
      (record_request success m).app_requests_total := by
  unfold record_request
  cases success <;> simp <;> omega

/-- C5: After any sequence of `record_request` calls from the initial state,
the failed-request counter never exceeds the total-request counter; and the
derived error rate is 0 whenever the total is 0 (no division fault). -/
theorem metrics_invariant :
    (∀ ops : List Bool,
      (runRequests ops).app_requests_failed ≤
        (runRequests ops).app_requests_total) ∧
    (∀ failed : Nat, errorRate 0 failed = 0) := by
  constructor
  · intro ops
    unfold runRequests
    have : ∀ (l : List Bool) (m : Metrics),
        m.app_requests_failed ≤ m.app_requests_total →
        (l.foldl (fun m success => record_request success m) m).app_requests_failed ≤
          (l.foldl (fun m success => record_request success m) m).app_requests_total := by
      intro l
      induction l with
      | nil => intro m hm; exact hm
      | cons b t ih =>
        intro m hm
        exact ih (record_request b m) (record_request_le b m hm)
    exact this ops initMetrics (by simp [initMetrics])
  · intro failed
    simp [errorRate]

end RecoveryHarness

namespace RecoveryHarness

/-! ## StateReset: `_delete_all_users` (conftest.py 56-81)

The function GETs `/users/`; if that raises `httpx.HTTPError` it logs and
returns with the store untouched.  Otherwise, for each entry of the returned
list it reads `user.get("id")`; if that value is falsy (missing, or the
integer 0) the entry is skipped; otherwise it issues `DELETE /users/{id}`,
and a raised `httpx.RequestError` on that delete is logged and swallowed (the
row survives).  All exception paths are caught, so the function never raises.

The network environment of one call is modelled by `ResetEnv`: whether the
list request fails, and which delete requests fail.  A persisted row as seen
through the list endpoint is `RUser`; its `id` may be absent in the JSON. -/

structure RUser where
  id : Option Int
  email : String
deriving Repr, DecidableEq

structure ResetEnv where
  listFails : Bool
  deleteFails : Int → Bool

/-- Python truthiness of `user.get("id")`: `None` and `0` are falsy. -/
def truthyId (u : RUser) : Option Int :=
  match u.id with
  | none => none
  | some i => if i = 0 then none else some i

/-- Outcome of one `_delete_all_users` call: the rows still persisted
afterwards, and the ids for which a DELETE request was issued, in order. -/
structure ResetTrace where
  store : List RUser
  deletesIssued : List Int
deriving DecidableEq

/-- The `for user in users` loop of `_delete_all_users` (conftest.py 73-81). -/
def resetLoop (env : ResetEnv) : List RUser → ResetTrace
  | [] => ⟨[], []⟩
  | u :: rest =>
    let r := resetLoop env rest
    match truthyId u with
    | none => ⟨u :: r.store, r.deletesIssued⟩
    | some i =>
      ⟨(if env.deleteFails i then [u] else []) ++ r.store, i :: r.deletesIssued⟩

/-- `_delete_all_users` on a store, under a given network environment. -/
def delete_all_users_trace (env : ResetEnv) (store : List RUser) : ResetTrace :=
  if env.listFails then ⟨store, []⟩ else resetLoop env store

/-- The persisted rows after one `_delete_all_users` call. -/
def delete_all_users (env : ResetEnv) (store : List RUser) : List RUser :=
  (delete_all_users_trace env store).store

/-- A row survives the delete loop iff its id is falsy or its delete fails. -/
def survives (env : ResetEnv) (u : RUser) : Bool :=
  match truthyId u with
  | none => true
  | some i => env.deleteFails i

theorem resetLoop_store (env : ResetEnv) (store : List RUser) :
    (resetLoop env store).store = store.filter (survives env) := by
  induction store with
  | nil => simp [resetLoop]
  | cons u rest ih =>
    simp only [resetLoop, List.filter_cons]
    cases h : truthyId u with
    | none => simp [survives, h, ih]
    | some i =>
      simp only [survives, h]
      cases hd : env.deleteFails i <;> simp [ih]

theorem resetLoop_deletes (env : ResetEnv) (store : List RUser) :
    (resetLoop env store).deletesIssued = store.filterMap truthyId := by
  induction store with
  | nil => simp [resetLoop]
  | cons u rest ih =>
    simp only [resetLoop, List.filterMap_cons]
    cases h : truthyId u with
    | none => simp [h, ih]
    | some i => simp [h, ih]

/-- C6 counterexample: the claim "for every initial state, including when
some requests fail, the entity count after `_delete_all_users` is exactly 0"
is false: when the initial list request fails, the function logs and returns
with the store untouched, so a store holding one row still holds it. -/
theorem delete_all_users_not_always_empty :
    (delete_all_users ⟨true, fun _ => false⟩ [⟨some 1, "user1@example.com"⟩]).length
      = 1 := rfl

/-- C6 amended: if the list request succeeds, every listed row has a present,
nonzero id, and no delete request fails, then after `_delete_all_users` the
persisted entity count is exactly 0. -/
theorem delete_all_users_empties_store (env : ResetEnv) (store : List RUser)
    (hlist : env.listFails = false)
    (hids : ∀ u ∈ store, truthyId u ≠ none)
    (hdel : ∀ i, env.deleteFails i = false) :
    (delete_all_users env store).length = 0 := by
  unfold delete_all_users delete_all_users_trace
  rw [hlist]
  simp only [Bool.false_eq_true, if_false, resetLoop_store]
  rw [List.length_eq_zero, List.filter_eq_nil]
  intro u hu
  have := hids u hu
  unfold survives
  cases h : truthyId u with
  | none => exact absurd h this
  | some i => simp [hdel i]

/-- Witness for the amended C6: under an all-success environment, a store of
two well-formed rows is fully emptied. -/
theorem delete_all_users_empties_store_witness :
    (delete_all_users ⟨false, fun _ => false⟩
      [⟨some 1, "a@x.com"⟩, ⟨some 2, "b@x.com"⟩]).length = 0 :=
  delete_all_users_empties_store ⟨false, fun _ => false⟩
    [⟨some 1, "a@x.com"⟩, ⟨some 2, "b@x.com"⟩] rfl
    (by intro u hu; fin_cases hu <;> simp [truthyId])
    (fun _ => rfl)

/-- C7: `_delete_all_users` is idempotent.  On an already-empty store it
leaves the count at 0 (and, every exception path being caught, returns
normally — in this embedding it is a total function); and for every network
environment and every starting store, running it twice in a row ends in the
same state as running it once. -/
theorem delete_all_users_idempotent :
    (∀ env : ResetEnv, (delete_all_users env []).length = 0) ∧
    (∀ (env : ResetEnv) (store : List RUser),
      delete_all_users env (delete_all_users env store) =
        delete_all_users env store) := by
  constructor
  · intro env
    unfold delete_all_users delete_all_users_trace
    cases h : env.listFails <;> simp [resetLoop]
  · intro env store
    unfold delete_all_users delete_all_users_trace
    cases h : env.listFails
    · simp only [Bool.false_eq_true, if_false, resetLoop_store]
      rw [List.filter_filter]
      simp
    · simp

/-- C9: when the list request succeeds, `_delete_all_users` issues DELETE
requests exactly for the rows whose `id` is present and truthy (nonzero),
in list order; and every row whose `id` is missing or 0 is skipped and
survives the reset, whatever the delete outcomes are. -/
theorem delete_all_users_skips_falsy_ids (env : ResetEnv) (store : List RUser)
    (hlist : env.listFails = false) :
    (delete_all_users_trace env store).deletesIssued =
      store.filterMap truthyId ∧
    ∀ u ∈ store, truthyId u = none → u ∈ delete_all_users env store := by
  unfold delete_all_users delete_all_users_trace
  rw [hlist]
  simp only [Bool.false_eq_true, if_false]
  refine ⟨resetLoop_deletes env store, ?_⟩
  intro u hu hfalsy
  rw [resetLoop_store, List.mem_filter]
  exact ⟨hu, by simp [survives, hfalsy]⟩

/-- Witness for C9: a store with one row of id 0, one with no id, and one
with id 7 leads to a single DELETE (for 7); the two falsy-id rows survive. -/
theorem delete_all_users_skips_falsy_ids_witness :
    (delete_all_users_trace ⟨false, fun _ => false⟩
        [⟨some 0, "zero@x.com"⟩, ⟨none, "noid@x.com"⟩, ⟨some 7, "c@x.com"⟩]).deletesIssued =
      [⟨some 0, "zero@x.com"⟩, ⟨none, "noid@x.com"⟩,
        (⟨some 7, "c@x.com"⟩ : RUser)].filterMap truthyId ∧
    ∀ u ∈ [⟨some 0, "zero@x.com"⟩, ⟨none, "noid@x.com"⟩,
        (⟨some 7, "c@x.com"⟩ : RUser)], truthyId u = none →
      u ∈ delete_all_users ⟨false, fun _ => false⟩
        [⟨some 0, "zero@x.com"⟩, ⟨none, "noid@x.com"⟩, ⟨some 7, "c@x.com"⟩] :=
  delete_all_users_skips_falsy_ids ⟨false, fun _ => false⟩
    [⟨some 0, "zero@x.com"⟩, ⟨none, "noid@x.com"⟩, ⟨some 7, "c@x.com"⟩] rfl

end RecoveryHarness

namespace RecoveryHarness

/-! ## ProcessController: `_run_docker_command` and wrappers
(conftest.py 102-151)

`subprocess.run(..., check=True, capture_output=True, text=True)` raises
`CalledProcessError` exactly when the command exits non-zero.  On success the
function optionally sleeps `wait_time` and returns `True`; on the error it
logs `exc.stderr or "Unknown error"` and returns `False` (no exception
escapes).  The executed command's outcome is modelled by `CmdOutcome`. -/

structure CmdOutcome where
  exitCode : Nat
  stderr : String
deriving Repr, DecidableEq

structure DockerRun where
  success : Bool
  loggedError : Option String
  sleptSeconds : Nat
deriving Repr, DecidableEq

/-- `_run_docker_command(command, wait_time)` (conftest.py 102-124), given
the outcome of the underlying command. -/
def run_docker_command (outcome : CmdOutcome) (wait_time : Nat) : DockerRun :=
  if outcome.exitCode = 0 then
    ⟨true, none, if wait_time > 0 then wait_time else 0⟩
  else
    ⟨false,
      some (if outcome.stderr = "" then "Unknown error" else outcome.stderr),
      0⟩

/-- `restart_container` (conftest.py 127-135); `DOCKER_WAIT_SECONDS = 10`. -/
def restart_container (outcome : CmdOutcome) (wait_time : Nat := 10) : DockerRun :=
  run_docker_command outcome wait_time

/-- `stop_container` (conftest.py 138-140): no wait. -/
def stop_container (outcome : CmdOutcome) : DockerRun :=
  run_docker_command outcome 0

/-- `start_container` (conftest.py 143-151); `DOCKER_WAIT_SECONDS = 10`. -/
def start_container (outcome : CmdOutcome) (wait_time : Nat := 10) : DockerRun :=
  run_docker_command outcome wait_time

/-- C8: for every command outcome and wait time, `_run_docker_command` (and
each stop/start/restart wrapper) succeeds exactly when the command exits 0;
on a non-zero exit it returns `false` and logs the captured stderr (or
"Unknown error" when stderr is empty) — and, every failure being returned
rather than raised, it is a total function in this embedding. -/
theorem run_docker_command_success_iff_exit_zero
    (outcome : CmdOutcome) (wait_time : Nat) :
    (run_docker_command outcome wait_time).success = decide (outcome.exitCode = 0) ∧
    (run_docker_command outcome wait_time).loggedError =
      (if outcome.exitCode = 0 then none
       else some (if outcome.stderr = "" then "Unknown error" else outcome.stderr)) ∧
    stop_container outcome = run_docker_command outcome 0 ∧
    start_container outcome = run_docker_command outcome 10 ∧
    restart_container outcome = run_docker_command outcome 10 := by
  by_cases h : outcome.exitCode = 0 <;>
    simp [run_docker_command, stop_container, start_container,
      restart_container, h]

end RecoveryHarness

namespace RecoveryHarness

/-! ## `get_metrics` returns a copy (app/metrics.py 54-58)

`get_metrics` returns `_metrics.copy()`: a fresh dict whose contents equal
the module-level `_metrics` dict.  To express the aliasing claim (mutating
the returned dict does not affect `_metrics`), dicts are kept in an explicit
heap of dict cells addressed by index; the module-level `_metrics` lives at
address 0, and `.copy()` allocates a fresh cell at the end of the heap. -/

abbrev Heap := List Metrics

/-- The heap at module load: only `_metrics`, at address 0. -/
def initHeap : Heap := [initMetrics]

def readDict : Heap → Nat → Metrics
  | [], _ => initMetrics
  | d :: _, 0 => d
  | _ :: rest, n + 1 => readDict rest n

def writeDict : Heap → Nat → Metrics → Heap
  | [], _, _ => []
  | _ :: rest, 0, d => d :: rest
  | x :: rest, n + 1, d => x :: writeDict rest n d

/-- `get_metrics()` (app/metrics.py 54-58): allocate a copy of the dict at
address 0 and return its (fresh) address. -/
def get_metrics_heap (h : Heap) : Heap × Nat :=
  (h ++ [readDict h 0], h.length)

/-- `record_request(success)` acting on the module-level `_metrics` cell. -/
def record_request_heap (success : Bool) (h : Heap) : Heap :=
  writeDict h 0 (record_request success (readDict h 0))

theorem readDict_append_lt (h l : Heap) (n : Nat) (hn : n < h.length) :
    readDict (h ++ l) n = readDict h n := by
  induction h generalizing n with
  | nil => exact absurd hn (Nat.not_lt_zero n)
  | cons x rest ih =>
    cases n with
    | zero => rfl
    | succ m =>
      simp only [List.cons_append, readDict]
      exact ih m (by simpa using hn)

theorem writeDict_append_length (h : Heap) (x d : Metrics) :
    writeDict (h ++ [x]) h.length d = h ++ [d] := by
  induction h with
  | nil => rfl
  | cons y rest ih => simp [writeDict, ih]

theorem readDict_append_singleton (l : Heap) (x : Metrics) :
    readDict (l ++ [x]) l.length = x := by
  induction l with
  | nil => rfl
  | cons y rest ih => simpa [readDict] using ih

theorem readDict_writeDict_zero (l : Heap) (v : Metrics) (hl : 0 < l.length) :
    readDict (writeDict l 0 v) 0 = v := by
  cases l with
  | nil => simp at hl
  | cons y rest => rfl

/-- C10: `get_metrics` leaves the internal metrics cell unchanged and returns
a snapshot equal to it, at an address distinct from the internal cell's;
mutating the snapshot (writing any dict into it) leaves the internal cell as
it was, so a later `record_request` still updates — and a later `get_metrics`
still reads — the original values. -/
theorem get_metrics_returns_copy (h : Heap) (hne : 0 < h.length)
    (d : Metrics) (success : Bool) :
    readDict (get_metrics_heap h).1 0 = readDict h 0 ∧
    readDict (get_metrics_heap h).1 (get_metrics_heap h).2 = readDict h 0 ∧
    (get_metrics_heap h).2 ≠ 0 ∧
    readDict (writeDict (get_metrics_heap h).1 (get_metrics_heap h).2 d) 0 =
      readDict h 0 ∧
    readDict (record_request_heap success
        (writeDict (get_metrics_heap h).1 (get_metrics_heap h).2 d)) 0 =
      record_request success (readDict h 0) ∧
    readDict (get_metrics_heap
        (writeDict (get_metrics_heap h).1 (get_metrics_heap h).2 d)).1
      (get_metrics_heap
        (writeDict (get_metrics_heap h).1 (get_metrics_heap h).2 d)).2 =
      readDict h 0 := by
  have hw : writeDict (get_metrics_heap h).1 (get_metrics_heap h).2 d =
      h ++ [d] := writeDict_append_length h (readDict h 0) d
  have hr0 : readDict (h ++ [d]) 0 = readDict h 0 :=
    readDict_append_lt h [d] 0 hne
  refine ⟨readDict_append_lt h [readDict h 0] 0 hne,
    readDict_append_singleton h (readDict h 0), ?_, ?_, ?_, ?_⟩
  · show h.length ≠ 0
    omega
  · rw [hw]
    exact hr0
  · rw [hw]
    unfold record_request_heap
    rw [readDict_writeDict_zero (h ++ [d]) _ (by simp), hr0]
  · rw [hw]
    show readDict ((h ++ [d]) ++ [readDict (h ++ [d]) 0])
      (h ++ [d]).length = readDict h 0
    rw [readDict_append_singleton (h ++ [d]) (readDict (h ++ [d]) 0)]
    exact hr0

/-- Witness for C10: from the module-load heap (where `_metrics` is the
initial dict), with an arbitrary mutation of the snapshot and a failed
request recorded afterwards. -/
theorem get_metrics_returns_copy_witness :
    readDict (get_metrics_heap initHeap).1 0 = readDict initHeap 0 ∧
    readDict (get_metrics_heap initHeap).1 (get_metrics_heap initHeap).2 =
      readDict initHeap 0 ∧
    (get_metrics_heap initHeap).2 ≠ 0 ∧
    readDict (writeDict (get_metrics_heap initHeap).1
        (get_metrics_heap initHeap).2 ⟨99, 99, 0, 0⟩) 0 = readDict initHeap 0 ∧
    readDict (record_request_heap false
        (writeDict (get_metrics_heap initHeap).1
          (get_metrics_heap initHeap).2 ⟨99, 99, 0, 0⟩)) 0 =
      record_request false (readDict initHeap 0) ∧
    readDict (get_metrics_heap
        (writeDict (get_metrics_heap initHeap).1
          (get_metrics_heap initHeap).2 ⟨99, 99, 0, 0⟩)).1
      (get_metrics_heap
        (writeDict (get_metrics_heap initHeap).1
          (get_metrics_heap initHeap).2 ⟨99, 99, 0, 0⟩)).2 =
      readDict initHeap 0 :=
  get_metrics_returns_copy initHeap (by decide) ⟨99, 99, 0, 0⟩ false

end RecoveryHarness
